import Mathlib

/-!
# Spotinst Elastigroup autoscaler target plugin

A shallow embedding of `plugin/elastigroup.go` and `plugin/plugin.go`.

* Go `int64` and `int` values are integers (`Int`); the code only compares and
  copies them (no arithmetic), and `int` is taken to be 64 bits wide, so the
  conversions `int64(x)` and `int(x)` are the identity.
* A Go function returning `(value, error)` yields an `Outcome`: a value, an
  error message, or a run-time panic (nil pointer dereference).
* Every call that leaves the process (Spotinst API, Nomad pool check, logger)
  is recorded, in order, in a list of `Event`s returned next to the outcome.
  The answers of the remote services are oracle functions held by the plugin.
* A pointer is an `Option` (`none` is the nil pointer); the object a handle
  points to is carried by value, so a mutation through the pointer is visible
  as the handle value returned after the call.
-/

namespace Plugin

/-! ## Data model -/

/-- Result of a Go function: normal return with a value, return with a non-nil
error (its message), or a run-time panic. -/
inductive Outcome (α : Type) where
  | ok (val : α)
  | error (msg : String)
  | panic
  deriving DecidableEq, Repr

/-- Capacity block of an SDK group (`azure.Capacity`, `aws.Capacity`,
`gcp.Capacity`): three `*int` fields. -/
structure Capacity where
  Minimum : Option Int
  Maximum : Option Int
  Target : Option Int
  deriving DecidableEq, Repr

/-- SDK group object (`azure.Group`, `aws.Group`, `gcp.Group`), reduced to its
identifier and its `Capacity` pointer, the only parts the plugin touches. -/
structure Group where
  ID : Option String
  Capacity : Option Capacity
  deriving DecidableEq, Repr

/-- The three provider services of the SDK client: `CloudProviderAzure()`,
`CloudProviderAWS()`, `CloudProviderGCP()`. -/
inductive Cloud where
  | azure
  | aws
  | gcp
  deriving DecidableEq, Repr

/-- Dynamic value of the `Group interface{}` field of `Elastigroup`: the nil
interface, or a pointer (possibly nil) of one of the three SDK group types. -/
inductive GroupValue where
  | nil
  | azure (p : Option Group)
  | aws (p : Option Group)
  | gcp (p : Option Group)
  deriving DecidableEq, Repr

/-- Go struct `Elastigroup`. -/
structure Elastigroup where
  Group : GroupValue
  Total : Int
  MaxCapacity : Int
  MinCapacity : Int
  deriving DecidableEq, Repr

/-- Go struct `ElastigroupStatus`. -/
structure ElastigroupStatus where
  Count : Int
  Ready : Bool
  deriving DecidableEq, Repr

/-- One element of a provider status list (`azure.Node`, `aws.Instance`,
`gcp.Instance`); `State` is the `*string` field the plugin reads (`State`,
`Status`, `StatusName` respectively). -/
structure Node where
  ID : Option String
  State : Option String
  deriving DecidableEq, Repr

/-- Go struct `sdk.ScalingAction`, reduced to the field the plugin reads. -/
structure ScalingAction where
  Count : Int
  deriving DecidableEq, Repr

/-- Go struct `sdk.TargetStatus`; `Meta` is `none` for the nil map. -/
structure TargetStatus where
  Ready : Bool
  Count : Int
  Meta : Option (List (String × String))
  deriving DecidableEq, Repr

/-- A Go `map[string]string`, seen through its lookup `v, ok := m[k]`. -/
abbrev Config := String → Option String

/-- Observable actions of the plugin, in the order they happen. -/
inductive Event where
  | Read (c : Cloud) (groupID : String)
  | Status (c : Cloud) (groupID : String)
  | Update (c : Cloud) (group : Group)
  | IsPoolReady
  | Info (msg : String) (args : List (String × Int))
  | Error (msg : String) (args : List (String × Int))
  deriving DecidableEq, Repr

/-- Answers of the Spotinst API (`elastigroup.ServiceOp`). `Read` yields the
`Group` pointer of the output (nil when the API lists no group), `Status` the
node or instance list, `Update` only success or failure. -/
structure ServiceOp where
  Read : Cloud → String → Except String (Option Group)
  Status : Cloud → String → Except String (List Node)
  Update : Cloud → Group → Except String Unit

/-- Answer of the Nomad node pool check (`scaleutils.ClusterScaleUtils`). -/
structure ClusterScaleUtils where
  IsPoolReady : Config → Except String Bool

/-- Go struct `TargetPlugin` (after `SetConfig`; the logger is the event list). -/
structure TargetPlugin where
  config : Config
  client : ServiceOp
  clusterUtils : ClusterScaleUtils

/-- Outcome of a call together with the events it caused. -/
structure Run (α : Type) where
  result : Outcome α
  events : List Event

/-- Outcome of `scale`: the returned error (or nil), the events, and the value
of the handle `g.Group` after the call. -/
structure ScaleRun where
  result : Outcome Unit
  events : List Event
  group : GroupValue

def configKeyElastigroupID : String := "elastigroup_id"

def configKeyProvider : String := "provider"

/-! ## Go library functions used by the plugin -/

/-- Go `spotinst.StringValue`: the pointed-to string, or the empty string for
nil. -/
def StringValue (v : Option String) : String :=
  match v with
  | some s => s
  | none => ""

/-- Method `SetTarget` of the SDK capacity types: stores the new target. -/
def Capacity.SetTarget (o : Capacity) (v : Int) : Capacity :=
  { o with Target := some v }

/-- Go `unicode.SimpleFold` on code points. Exact on ASCII (table `asciiFold`)
and on the two other runes whose orbit meets ASCII (Kelvin sign U+212A and
long s U+017F); the rest of the Unicode table is not reproduced and such
runes are returned unchanged. `EqualFold` folds the smaller rune of a pair,
so with an ASCII operand it only ever follows the orbit of an ASCII rune. -/
def SimpleFold (r : Nat) : Nat :=
  if r = 0x4B then 0x6B
  else if r = 0x6B then 0x212A
  else if r = 0x212A then 0x4B
  else if r = 0x53 then 0x73
  else if r = 0x73 then 0x17F
  else if r = 0x17F then 0x53
  else if 0x41 ≤ r ∧ r ≤ 0x5A then r + 32
  else if 0x61 ≤ r ∧ r ≤ 0x7A then r - 32
  else r

/-- Loop `for r != sr && r < tr { r = unicode.SimpleFold(r) }` of
`strings.EqualFold`, with the number of iterations bounded by `fuel`. -/
def foldUpTo (sr tr : Nat) : Nat → Nat → Nat
  | 0, r => r
  | fuel + 1, r => if r ≠ sr ∧ r < tr then foldUpTo sr tr fuel (SimpleFold r) else r

/-- Body of the rune loop of `strings.EqualFold`: do the runes `sr` and `tr`
match under simple case folding. Orbits have at most four runes, so four
rounds of the inner loop are enough. -/
def runeEqualFold (sr tr : Nat) : Bool :=
  if tr = sr then true
  else
    let lo := if tr < sr then tr else sr
    let hi := if tr < sr then sr else tr
    if hi < 0x80 then
      decide (0x41 ≤ lo ∧ lo ≤ 0x5A ∧ hi = lo + 32)
    else
      decide (foldUpTo lo hi 4 (SimpleFold lo) = hi)

/-- Rune loop of `strings.EqualFold` over the decoded runes of both strings. -/
def EqualFoldRunes : List Nat → List Nat → Bool
  | [], t => t.isEmpty
  | _ :: _, [] => false
  | sr :: s, tr :: t => if runeEqualFold sr tr then EqualFoldRunes s t else false

/-- Go `strings.EqualFold` on valid UTF-8 strings. -/
def EqualFold (s t : String) : Bool :=
  EqualFoldRunes (s.toList.map Char.toNat) (t.toList.map Char.toNat)

/-! ## plugin/elastigroup.go -/

/-- The assignments `g.Group = out.Group; g.Total = int64(*out.Group.Capacity.Target);
g.MaxCapacity = ...Maximum; g.MinCapacity = ...Minimum` shared by the three
branches of `getCurrentElastigroup`; dereferencing a nil pointer panics. -/
def fillElastigroup (handle : GroupValue) (out : Option Group) : Outcome Elastigroup :=
  match out with
  | none => .panic
  | some grp =>
    match grp.Capacity with
    | none => .panic
    | some c =>
      match c.Target, c.Maximum, c.Minimum with
      | some target, some maximum, some minimum =>
        .ok { Group := handle, Total := target, MaxCapacity := maximum, MinCapacity := minimum }
      | _, _, _ => .panic

def TargetPlugin.getCurrentElastigroup (t : TargetPlugin) : Run Elastigroup :=
  match t.config configKeyProvider with
  | none => ⟨.error "provider is a required field", []⟩
  | some provider =>
    match t.config configKeyElastigroupID with
    | none => ⟨.error "elastigroup_id is a required field", []⟩
    | some groupID =>
      if provider = "azure" then
        match t.client.Read .azure groupID with
        | .error err =>
          ⟨.error ("could not read Azure configuration: " ++ err), [.Read .azure groupID]⟩
        | .ok out => ⟨fillElastigroup (.azure out) out, [.Read .azure groupID]⟩
      else if provider = "aws" then
        match t.client.Read .aws groupID with
        | .error err =>
          ⟨.error ("could not read AWS configuration: " ++ err), [.Read .aws groupID]⟩
        | .ok out => ⟨fillElastigroup (.aws out) out, [.Read .aws groupID]⟩
      else if provider = "gcp" then
        match t.client.Read .gcp groupID with
        | .error err =>
          ⟨.error ("could not read GCP configuration: " ++ err), [.Read .gcp groupID]⟩
        | .ok out => ⟨fillElastigroup (.gcp out) out, [.Read .gcp groupID]⟩
      else
        ⟨.error ("expected provider of \x27aws\x27, \x27azure\x27, or \x27gcp\x27.  Received "
          ++ provider ++ " "), []⟩

/-- The loop `status.Ready = true; for _, vm := range nodes { if
!strings.EqualFold(spotinst.StringValue(vm.State), "running") { status.Ready =
false } }` together with `status.Count = int64(len(nodes))`. -/
def fillStatus (nodes : List Node) : ElastigroupStatus :=
  { Count := (nodes.length : Int)
    Ready := nodes.foldl
      (fun ready vm => if !EqualFold (StringValue vm.State) "running" then false else ready)
      true }

def TargetPlugin.getCurrentElastigroupTargetStatus (t : TargetPlugin) : Run ElastigroupStatus :=
  match t.config configKeyProvider with
  | none => ⟨.error "provider is a required field", []⟩
  | some provider =>
    match t.config configKeyElastigroupID with
    | none => ⟨.error "elastigroup_id is a required field", []⟩
    | some groupID =>
      if provider = "azure" then
        match t.client.Status .azure groupID with
        | .error err =>
          ⟨.error ("could not read Azure elastigroup status: " ++ err), [.Status .azure groupID]⟩
        | .ok nodes => ⟨.ok (fillStatus nodes), [.Status .azure groupID]⟩
      else if provider = "aws" then
        match t.client.Status .aws groupID with
        | .error err =>
          ⟨.error ("could not read AWS elastigroup status: " ++ err), [.Status .aws groupID]⟩
        | .ok nodes => ⟨.ok (fillStatus nodes), [.Status .aws groupID]⟩
      else if provider = "gcp" then
        match t.client.Status .gcp groupID with
        | .error err =>
          ⟨.error ("could not read GCP elastigroup status: " ++ err), [.Status .gcp groupID]⟩
        | .ok nodes => ⟨.ok (fillStatus nodes), [.Status .gcp groupID]⟩
      else
        ⟨.error ("expected provider of \x27aws\x27, \x27azure\x27, or \x27gcp\x27.  Received "
          ++ provider ++ " "), []⟩

/-- The statement `grp.Capacity.SetTarget(spotinst.Int(int(count)))` on a group
pointer: `none` when it dereferences a nil pointer (the group or its
capacity), else the group after the store. -/
def setGroupTarget (p : Option Group) (count : Int) : Option Group :=
  match p with
  | none => none
  | some grp =>
    match grp.Capacity with
    | none => none
    | some c => some { grp with Capacity := some (c.SetTarget count) }

/-- The tail of each branch of `scale`: `_, err = Update(ctx, input); return err`. -/
def callUpdate (t : TargetPlugin) (c : Cloud) (grp : Group) : Outcome Unit :=
  match t.client.Update c grp with
  | .ok _ => .ok ()
  | .error err => .error err

def TargetPlugin.scale (t : TargetPlugin) (count : Int) (g : Elastigroup) : ScaleRun :=
  match t.config configKeyProvider with
  | none => ⟨.error "provider is a required field", [], g.Group⟩
  | some provider =>
    if provider = "azure" then
      -- azureGroup, ok := g.Group.(*azure.Group)
      let azureGroup : Option Group := match g.Group with
        | .azure p => p
        | _ => none
      let ok : Bool := match g.Group with
        | .azure _ => true
        | _ => false
      -- azureGroup.Capacity.SetTarget(...) comes before the test of ok
      match setGroupTarget azureGroup count with
      | none => ⟨.panic, [], g.Group⟩
      | some grp =>
        if !ok then
          ⟨.error "Group type assertion failed.  Group is not of type Azure", [], .azure (some grp)⟩
        else
          ⟨callUpdate t .azure grp, [.Update .azure grp], .azure (some grp)⟩
    else if provider = "aws" then
      match g.Group with
      | .aws awsGroup =>
        match setGroupTarget awsGroup count with
        | none => ⟨.panic, [], g.Group⟩
        | some grp => ⟨callUpdate t .aws grp, [.Update .aws grp], .aws (some grp)⟩
      | _ => ⟨.error "Group type assertion failed.  Group is not of type AWS", [], g.Group⟩
    else if provider = "gcp" then
      match g.Group with
      | .gcp gcpGroup =>
        match setGroupTarget gcpGroup count with
        | none => ⟨.panic, [], g.Group⟩
        | some grp => ⟨callUpdate t .gcp grp, [.Update .gcp grp], .gcp (some grp)⟩
      | _ => ⟨.error "Group type assertion failed.  Group is not of type GCP", [], g.Group⟩
    else
      ⟨.error ("expected provider of \x27aws\x27, \x27azure\x27, or \x27gcp\x27.  Received "
        ++ provider ++ " "), [], g.Group⟩

def calculateDirection (target desired : Int) : String :=
  if desired < target then "in"
  else if desired > target then "out"
  else ""

/-! ## plugin/plugin.go -/

/-- The three bounds and direction checks of `Scale` between the direction test
and the call of `scale`; each only writes to the error log. -/
def boundsLog (direction : String) (g : Elastigroup) (action : ScalingAction) : List Event :=
  (if direction ≠ "out" ∧ direction ≠ "in" then
    [Event.Error ("cannot scale - scaling direction " ++ direction ++ " is invalid") []]
   else [])
  ++ (if direction = "out" ∧ g.MaxCapacity < action.Count then
    [Event.Error "cannot scale out due to capacity limits"
      [("current_count", g.Total), ("strategy_count", action.Count)]]
   else [])
  ++ (if direction = "in" ∧ g.MinCapacity > action.Count then
    [Event.Error "cannot scale in due to capacity limits"
      [("current_count", g.Total), ("strategy_count", action.Count)]]
   else [])

/-- Method `Scale`. The constant `sdk.StrategyActionMetaValueDryRunCount` of the
autoscaler SDK is the parameter `dryRunCount`; the argument `config` is not
read (the code uses `t.config`). -/
def TargetPlugin.Scale (t : TargetPlugin) (dryRunCount : Int) (action : ScalingAction)
    (_config : Config) : Run Unit :=
  if action.Count = dryRunCount then ⟨.ok (), []⟩
  else
    let r := t.getCurrentElastigroup
    match r.result with
    | .panic => ⟨.panic, r.events⟩
    | .error err => ⟨.error ("failed to describe Elastigroup: " ++ err), r.events⟩
    | .ok g =>
      let direction := calculateDirection g.Total action.Count
      if direction = "" then
        ⟨.ok (), r.events ++ [Event.Info "scaling not required"
          [("current_count", g.Total), ("strategy_count", action.Count)]]⟩
      else
        let s := t.scale action.Count g
        let events := r.events ++ boundsLog direction g action ++ s.events
        match s.result with
        | .error err => ⟨.error ("failed to perform scaling action: " ++ err), events⟩
        | .ok _ => ⟨.ok (), events⟩
        | .panic => ⟨.panic, events⟩

/-- Method `Status`. -/
def TargetPlugin.Status (t : TargetPlugin) (config : Config) : Run TargetStatus :=
  match t.clusterUtils.IsPoolReady config with
  | .error err =>
    ⟨.error ("failed to run Nomad node readiness check: " ++ err), [Event.IsPoolReady]⟩
  | .ok ready =>
    if !ready then ⟨.ok { Ready := ready, Count := 0, Meta := none }, [Event.IsPoolReady]⟩
    else
      let r := t.getCurrentElastigroupTargetStatus
      match r.result with
      | .panic => ⟨.panic, Event.IsPoolReady :: r.events⟩
      | .error err =>
        ⟨.error ("failed to describe Elastigroup: " ++ err), Event.IsPoolReady :: r.events⟩
      | .ok status =>
        ⟨.ok { Ready := status.Ready, Count := status.Count, Meta := some [] },
          Event.IsPoolReady :: r.events⟩

/-! ## Observations on event lists -/

/-- Is the event a call of the Spotinst API (Read, Status or Update). -/
def Event.isProviderCall : Event → Bool
  | .Read _ _ => true
  | .Status _ _ => true
  | .Update _ _ => true
  | _ => false

/-- Is the event an Update call. -/
def Event.isUpdate : Event → Bool
  | .Update _ _ => true
  | _ => false

/-- Is the event a Read call. -/
def Event.isRead : Event → Bool
  | .Read _ _ => true
  | _ => false

/-- The Spotinst API calls among the events, in order. -/
def providerCalls (events : List Event) : List Event :=
  events.filter Event.isProviderCall

/-- ASCII lower-casing of a string, the normal form used to compare a state
with the literal running. -/
def lowerCase (s : String) : List Char :=
  s.toList.map Char.toLower

/-- The three provider names the plugin accepts. -/
def knownProvider (provider : String) : Bool :=
  provider = "azure" ∨ provider = "aws" ∨ provider = "gcp"

/-- Text of the error returned for a provider outside the three known ones. -/
def unknownProviderMessage (provider : String) : String :=
  "expected provider of \x27aws\x27, \x27azure\x27, or \x27gcp\x27.  Received " ++ provider ++ " "

/-- Result of `Scale` once the provider Update has answered `a`: nil, or the
error of the Update under the outer message. -/
def afterUpdate (a : Except String Unit) : Outcome Unit :=
  match a with
  | .ok _ => .ok ()
  | .error err => .error ("failed to perform scaling action: " ++ err)

/-- The group with its capacity target replaced by `count`. -/
def withTarget (grp : Group) (cap : Capacity) (count : Int) : Group :=
  { ID := grp.ID
    Capacity := some { Minimum := cap.Minimum, Maximum := cap.Maximum, Target := some count } }

/-- Configuration name of a provider service. -/
def cloudName : Cloud → String
  | .azure => "azure"
  | .aws => "aws"
  | .gcp => "gcp"

/-- The handle value that the Read branch of a provider stores in `g.Group`. -/
def handleOf : Cloud → Option Group → GroupValue
  | .azure, p => .azure p
  | .aws, p => .aws p
  | .gcp, p => .gcp p

/-- Lower-casing of an ASCII code point. -/
def lowerRune (r : Nat) : Nat :=
  if 65 ≤ r ∧ r ≤ 90 then r + 32 else r

/-- A lower-case ASCII letter other than k and s: its orbit is the letter and
its capital. -/
def plainLower (x : Nat) : Prop :=
  97 ≤ x ∧ x ≤ 122 ∧ x ≠ 107 ∧ x ≠ 115

instance (x : Nat) : Decidable (plainLower x) := by
  unfold plainLower
  infer_instance

/-! ## Concrete plugins used to exercise the theorems -/

/-- A client whose calls all succeed: Read reports target 5, minimum 1 and
maximum 10; Status reports three running nodes in three spellings. -/
def demoClient : ServiceOp :=
  { Read := fun _ _ => .ok (some ⟨some "sig-1", some ⟨some 1, some 10, some 5⟩⟩)
    Status := fun _ _ => .ok
      [⟨some "i-1", some "running"⟩, ⟨some "i-2", some "Running"⟩, ⟨some "i-3", some "RUNNING"⟩]
    Update := fun _ _ => .ok () }

/-- A client whose calls all fail. -/
def failingClient : ServiceOp :=
  { Read := fun _ _ => .error "read refused"
    Status := fun _ _ => .error "status refused"
    Update := fun _ _ => .error "update refused" }

/-- A client whose Read is that of `demoClient` and whose Update fails. -/
def updateFailingClient : ServiceOp :=
  { demoClient with Update := fun _ _ => .error "update refused" }

/-- Configuration with the given provider and the group `sig-1`. -/
def demoConfig (provider : String) : Config :=
  fun k => if k = "provider" then some provider
    else if k = "elastigroup_id" then some "sig-1" else none

/-- Configuration holding only the key `provider`. -/
def providerOnlyConfig (provider : String) : Config :=
  fun k => if k = "provider" then some provider else none

/-- Configuration holding no key. -/
def emptyConfig : Config := fun _ => none

/-- Plugin over `demoClient` with a ready Nomad pool. -/
def demoPlugin (config : Config) : TargetPlugin :=
  { config := config, client := demoClient, clusterUtils := ⟨fun _ => .ok true⟩ }

/-- Plugin over `failingClient` with a ready Nomad pool. -/
def failingPlugin (config : Config) : TargetPlugin :=
  { config := config, client := failingClient, clusterUtils := ⟨fun _ => .ok true⟩ }

/-- Plugin over `updateFailingClient` with a ready Nomad pool. -/
def updateFailingPlugin (config : Config) : TargetPlugin :=
  { config := config, client := updateFailingClient, clusterUtils := ⟨fun _ => .ok true⟩ }

/-- The group that the Read of `demoClient` returns. -/
def demoGroup : Group := ⟨some "sig-1", some ⟨some 1, some 10, some 5⟩⟩

/-! ## Case folding against the literal running -/

theorem runeEqualFold_plainLower (sr x : Nat) (hx : plainLower x) :
    runeEqualFold sr x = true ↔ lowerRune sr = x := by
  obtain ⟨h1, h2, h3, h4⟩ := hx
  unfold runeEqualFold lowerRune
  by_cases e : x = sr
  · subst e
    simp
    omega
  · simp only [e, if_false]
    by_cases hlt : x < sr
    · simp only [hlt, if_true]
      by_cases hs : sr < 128
      · simp only [hs, if_true, decide_eq_true_eq]
        split_ifs <;> omega
      · simp only [hs, if_false, decide_eq_true_eq]
        have f1 : SimpleFold x = x - 32 := by
          unfold SimpleFold
          split_ifs <;> omega
        have f2 : SimpleFold (x - 32) = x := by
          unfold SimpleFold
          split_ifs <;> omega
        have : foldUpTo x sr 4 (SimpleFold x) = x := by
          rw [f1]
          simp only [foldUpTo]
          rw [f2]
          split_ifs <;> omega
        rw [this]
        split_ifs <;> omega
    · simp only [hlt, if_false]
      have hx128 : x < 128 := by omega
      simp only [hx128, if_true, decide_eq_true_eq]
      split_ifs <;> omega

theorem EqualFoldRunes_plainLower (t : List Nat) (ht : ∀ x ∈ t, plainLower x) (s : List Nat) :
    EqualFoldRunes s t = true ↔ s.map lowerRune = t := by
  induction s generalizing t with
  | nil => cases t <;> simp [EqualFoldRunes]
  | cons sr s ih =>
    cases t with
    | nil => simp [EqualFoldRunes]
    | cons x t =>
      have hx : plainLower x := ht x (by simp)
      have ht2 : ∀ y ∈ t, plainLower y := fun y hy => ht y (by simp [hy])
      simp only [EqualFoldRunes, List.map_cons, List.cons.injEq]
      rw [← runeEqualFold_plainLower sr x hx, ← ih t ht2]
      by_cases h : runeEqualFold sr x = true <;> simp [h]

theorem toNat_ofNat_small (n : Nat) (h : n < 0xd800) : (Char.ofNat n).toNat = n := by
  have hv : n.isValidChar := Or.inl h
  unfold Char.ofNat
  rw [dif_pos hv]
  unfold Char.ofNatAux Char.toNat
  show (UInt32.ofNat' n _).toNat = n
  simp [UInt32.ofNat', UInt32.toNat]

theorem toNat_toLower (c : Char) : c.toLower.toNat = lowerRune c.toNat := by
  unfold Char.toLower lowerRune
  simp only [ge_iff_le]
  split_ifs with h
  · exact toNat_ofNat_small _ (by omega)
  · rfl

theorem toNat_injective : Function.Injective Char.toNat := by
  intro a b h
  have h2 : Char.ofNat a.toNat = Char.ofNat b.toNat := by rw [h]
  simpa using h2

theorem running_runes :
    "running".toList.map Char.toNat = [114, 117, 110, 110, 105, 110, 103] := by
  decide

theorem EqualFold_running (s : String) :
    EqualFold s "running" = true ↔ lowerCase s = "running".toList := by
  unfold EqualFold lowerCase
  rw [running_runes, EqualFoldRunes_plainLower _ (by
    intro x hx
    simp only [List.mem_cons, List.mem_singleton, List.not_mem_nil, or_false] at hx
    unfold plainLower
    omega)]
  rw [← running_runes, List.map_map]
  have hfun : lowerRune ∘ Char.toNat = Char.toNat ∘ Char.toLower := by
    funext c
    simp [toNat_toLower]
  rw [hfun, ← List.map_map]
  exact (List.map_injective_iff.mpr toNat_injective).eq_iff

theorem SimpleFold_plain (x : Nat) (h1 : x ≠ 0x4B) (h2 : x ≠ 0x6B) (h3 : x ≠ 0x212A)
    (h4 : x ≠ 0x53) (h5 : x ≠ 0x73) (h6 : x ≠ 0x17F) :
    SimpleFold x =
      if 0x41 ≤ x ∧ x ≤ 0x5A then x + 32 else if 0x61 ≤ x ∧ x ≤ 0x7A then x - 32 else x := by
  unfold SimpleFold
  simp only [h1, h2, h3, h4, h5, h6, if_false]

theorem SimpleFold_orbit (x : Nat) :
    SimpleFold x = x ∨ SimpleFold (SimpleFold x) = x ∨
      SimpleFold (SimpleFold (SimpleFold x)) = x := by
  by_cases h1 : x = 0x4B
  · subst h1; decide
  by_cases h2 : x = 0x6B
  · subst h2; decide
  by_cases h3 : x = 0x212A
  · subst h3; decide
  by_cases h4 : x = 0x53
  · subst h4; decide
  by_cases h5 : x = 0x73
  · subst h5; decide
  by_cases h6 : x = 0x17F
  · subst h6; decide
  rw [SimpleFold_plain x h1 h2 h3 h4 h5 h6]
  by_cases hu : 0x41 ≤ x ∧ x ≤ 0x5A
  · right; left
    rw [if_pos hu, SimpleFold_plain (x + 32) (by omega) (by omega) (by omega) (by omega)
      (by omega) (by omega)]
    split_ifs <;> omega
  · rw [if_neg hu]
    by_cases hl : 0x61 ≤ x ∧ x ≤ 0x7A
    · right; left
      rw [if_pos hl, SimpleFold_plain (x - 32) (by omega) (by omega) (by omega) (by omega)
        (by omega) (by omega)]
      split_ifs <;> omega
    · left
      rw [if_neg hl]

/-- The inner loop of `EqualFold` has left its condition after at most four
rounds, whatever the two runes: the bound on the rounds never cuts it short. -/
theorem foldUpTo_exits (sr tr : Nat) :
    foldUpTo sr tr 4 (SimpleFold sr) = sr ∨ ¬ foldUpTo sr tr 4 (SimpleFold sr) < tr := by
  have h := SimpleFold_orbit sr
  simp only [foldUpTo]
  generalize SimpleFold sr = a at h ⊢
  generalize hb : SimpleFold a = b at h ⊢
  generalize hc : SimpleFold b = c at h ⊢
  split_ifs <;> omega


/-! ## Shape of a successful Read and of the Update that follows it -/

theorem read_ok_shape (t : TargetPlugin) (g : Elastigroup)
    (h : t.getCurrentElastigroup.result = .ok g) :
    ∃ c groupID grp cap,
      t.config configKeyProvider = some (cloudName c) ∧
      t.config configKeyElastigroupID = some groupID ∧
      t.client.Read c groupID = .ok (some grp) ∧
      grp.Capacity = some cap ∧
      cap.Target = some g.Total ∧ cap.Maximum = some g.MaxCapacity ∧
      cap.Minimum = some g.MinCapacity ∧
      g.Group = handleOf c (some grp) ∧
      t.getCurrentElastigroup.events = [Event.Read c groupID] := by
  have fill : ∀ (hd : GroupValue) (out : Option Group), fillElastigroup hd out = .ok g →
      ∃ grp cap, out = some grp ∧ grp.Capacity = some cap ∧ cap.Target = some g.Total ∧
        cap.Maximum = some g.MaxCapacity ∧ cap.Minimum = some g.MinCapacity ∧ g.Group = hd := by
    intro hd out hf
    unfold fillElastigroup at hf
    split at hf
    · cases hf
    · rename_i grp
      split at hf
      · cases hf
      · rename_i cap hcap
        split at hf
        · rename_i a b c ha hb hc
          injection hf with hf
          subst hf
          exact ⟨grp, cap, rfl, hcap, ha, hb, hc, rfl⟩
        · cases hf
  unfold TargetPlugin.getCurrentElastigroup at h ⊢
  cases hp : t.config configKeyProvider with
  | none => simp [hp] at h
  | some provider =>
    cases hg : t.config configKeyElastigroupID with
    | none => simp [hp, hg] at h
    | some groupID =>
      simp only [hp, hg] at h ⊢
      by_cases h1 : provider = "azure"
      · simp only [h1, if_true] at h ⊢
        cases hr : t.client.Read .azure groupID with
        | error e => simp [hr] at h
        | ok out =>
          simp only [hr] at h ⊢
          obtain ⟨grp, cap, rfl, q1, q2, q3, q4, q5⟩ := fill _ _ h
          exact ⟨.azure, groupID, grp, cap, rfl, rfl, hr, q1, q2, q3, q4, q5, rfl⟩
      · by_cases h2 : provider = "aws"
        · simp only [h2, if_true] at h ⊢
          cases hr : t.client.Read .aws groupID with
          | error e => simp [hr] at h
          | ok out =>
            simp only [hr] at h ⊢
            obtain ⟨grp, cap, rfl, q1, q2, q3, q4, q5⟩ := fill _ _ h
            exact ⟨.aws, groupID, grp, cap, rfl, rfl, hr, q1, q2, q3, q4, q5, rfl⟩
        · by_cases h3 : provider = "gcp"
          · simp only [h3, if_true] at h ⊢
            cases hr : t.client.Read .gcp groupID with
            | error e => simp [hr] at h
            | ok out =>
              simp only [hr] at h ⊢
              obtain ⟨grp, cap, rfl, q1, q2, q3, q4, q5⟩ := fill _ _ h
              exact ⟨.gcp, groupID, grp, cap, rfl, rfl, hr, q1, q2, q3, q4, q5, rfl⟩
          · simp [h1, h2, h3] at h

theorem scale_matching (t : TargetPlugin) (count : Int) (g : Elastigroup) (c : Cloud)
    (grp : Group) (cap : Capacity)
    (hp : t.config configKeyProvider = some (cloudName c))
    (hg : g.Group = handleOf c (some grp)) (hc : grp.Capacity = some cap) :
    t.scale count g =
      ⟨callUpdate t c { grp with Capacity := some (cap.SetTarget count) },
       [Event.Update c { grp with Capacity := some (cap.SetTarget count) }],
       handleOf c (some { grp with Capacity := some (cap.SetTarget count) })⟩ := by
  cases c <;>
    simp [TargetPlugin.scale, hp, hg, cloudName, handleOf, setGroupTarget, hc]


/-! ## Readiness loop -/

theorem ready_loop (nodes : List Node) (b : Bool) :
    nodes.foldl
      (fun ready vm => if !EqualFold (StringValue vm.State) "running" then false else ready) b
      = (b && nodes.all (fun vm => EqualFold (StringValue vm.State) "running")) := by
  induction nodes generalizing b with
  | nil => simp
  | cons vm rest ih =>
    rw [List.foldl_cons, ih]
    cases h : EqualFold (StringValue vm.State) "running" <;> cases b <;> simp [h]

theorem fillStatus_ready_iff (nodes : List Node) :
    (fillStatus nodes).Ready = true ↔
      ∀ vm ∈ nodes, lowerCase (StringValue vm.State) = "running".toList := by
  unfold fillStatus
  simp only [ready_loop, Bool.true_and, List.all_eq_true]
  constructor
  · intro h vm hvm
    exact (EqualFold_running _).mp (h vm hvm)
  · intro h vm hvm
    exact (EqualFold_running _).mpr (h vm hvm)

theorem status_matching (t : TargetPlugin) (c : Cloud) (groupID : String) (nodes : List Node)
    (hp : t.config configKeyProvider = some (cloudName c))
    (hg : t.config configKeyElastigroupID = some groupID)
    (hs : t.client.Status c groupID = .ok nodes) :
    t.getCurrentElastigroupTargetStatus.result = .ok (fillStatus nodes) ∧
    t.getCurrentElastigroupTargetStatus.events = [Event.Status c groupID] := by
  cases c <;>
    simp [TargetPlugin.getCurrentElastigroupTargetStatus, hp, hg, hs, cloudName]

/-! ## Direction -/

theorem calculateDirection_same (n : Int) : calculateDirection n n = "" := by
  unfold calculateDirection
  rw [if_neg (by omega), if_neg (by omega)]

theorem calculateDirection_lt (target desired : Int) (h : desired < target) :
    calculateDirection target desired = "in" := by
  unfold calculateDirection
  rw [if_pos h]

theorem calculateDirection_gt (target desired : Int) (h : desired > target) :
    calculateDirection target desired = "out" := by
  unfold calculateDirection
  rw [if_neg (by omega), if_pos h]

theorem calculateDirection_ne (target desired : Int) (h : target ≠ desired) :
    calculateDirection target desired ≠ "" := by
  rcases lt_or_gt_of_ne h with h1 | h1
  · rw [calculateDirection_gt target desired h1]
    decide
  · rw [calculateDirection_lt target desired h1]
    decide

/-! ## Runs of `Scale` -/

theorem boundsLog_no_call (direction : String) (g : Elastigroup) (action : ScalingAction) :
    ∀ e ∈ boundsLog direction g action, e.isUpdate = false ∧ e.isRead = false := by
  intro e he
  unfold boundsLog at he
  simp only [List.mem_append] at he
  rcases he with (he | he) | he <;>
    · split_ifs at he
      · simp only [List.mem_singleton] at he
        subst he
        exact ⟨rfl, rfl⟩
      · simp at he

theorem filter_none (p : Event → Bool) (l : List Event) (h : ∀ e ∈ l, p e = false) :
    l.filter p = [] := by
  rw [List.filter_eq_nil_iff]
  intro e he
  simp [h e he]

theorem read_events (t : TargetPlugin) :
    t.getCurrentElastigroup.events = [] ∨
      ∃ c groupID, t.getCurrentElastigroup.events = [Event.Read c groupID] := by
  unfold TargetPlugin.getCurrentElastigroup
  cases t.config configKeyProvider with
  | none => exact Or.inl rfl
  | some provider =>
    cases t.config configKeyElastigroupID with
    | none => exact Or.inl rfl
    | some groupID =>
      dsimp only
      split_ifs
      · right
        exact ⟨.azure, groupID, by cases t.client.Read .azure groupID <;> rfl⟩
      · right
        exact ⟨.aws, groupID, by cases t.client.Read .aws groupID <;> rfl⟩
      · right
        exact ⟨.gcp, groupID, by cases t.client.Read .gcp groupID <;> rfl⟩
      · exact Or.inl rfl

theorem read_events_configured (t : TargetPlugin) (c : Cloud) (groupID : String)
    (hp : t.config configKeyProvider = some (cloudName c))
    (hg : t.config configKeyElastigroupID = some groupID) :
    t.getCurrentElastigroup.events = [Event.Read c groupID] := by
  cases c
  · cases h : t.client.Read .azure groupID <;>
      simp [TargetPlugin.getCurrentElastigroup, hp, hg, cloudName, h]
  · cases h : t.client.Read .aws groupID <;>
      simp [TargetPlugin.getCurrentElastigroup, hp, hg, cloudName, h]
  · cases h : t.client.Read .gcp groupID <;>
      simp [TargetPlugin.getCurrentElastigroup, hp, hg, cloudName, h]

theorem Scale_of_read_panic (t : TargetPlugin) (dryRunCount : Int) (action : ScalingAction)
    (config : Config) (hdry : action.Count ≠ dryRunCount)
    (hread : t.getCurrentElastigroup.result = .panic) :
    t.Scale dryRunCount action config = ⟨.panic, t.getCurrentElastigroup.events⟩ := by
  simp [TargetPlugin.Scale, hdry, hread]

theorem Scale_of_read_error (t : TargetPlugin) (dryRunCount : Int) (action : ScalingAction)
    (config : Config) (err : String) (hdry : action.Count ≠ dryRunCount)
    (hread : t.getCurrentElastigroup.result = .error err) :
    t.Scale dryRunCount action config =
      ⟨.error ("failed to describe Elastigroup: " ++ err), t.getCurrentElastigroup.events⟩ := by
  simp [TargetPlugin.Scale, hdry, hread]

theorem Scale_of_same_count (t : TargetPlugin) (dryRunCount : Int) (action : ScalingAction)
    (config : Config) (g : Elastigroup) (hdry : action.Count ≠ dryRunCount)
    (hread : t.getCurrentElastigroup.result = .ok g) (heq : g.Total = action.Count) :
    t.Scale dryRunCount action config =
      ⟨.ok (), t.getCurrentElastigroup.events ++ [Event.Info "scaling not required"
        [("current_count", g.Total), ("strategy_count", action.Count)]]⟩ := by
  have hd : calculateDirection g.Total action.Count = "" := by
    rw [heq]
    exact calculateDirection_same action.Count
  simp [TargetPlugin.Scale, hdry, hread, hd]

theorem Scale_of_other_count (t : TargetPlugin) (dryRunCount : Int) (action : ScalingAction)
    (config : Config) (g : Elastigroup) (hdry : action.Count ≠ dryRunCount)
    (hread : t.getCurrentElastigroup.result = .ok g) (hne : g.Total ≠ action.Count) :
    ∃ c groupID grp cap,
      t.config configKeyProvider = some (cloudName c) ∧
      t.config configKeyElastigroupID = some groupID ∧
      t.client.Read c groupID = .ok (some grp) ∧ grp.Capacity = some cap ∧
      cap.Target = some g.Total ∧
      t.Scale dryRunCount action config =
        ⟨afterUpdate (t.client.Update c (withTarget grp cap action.Count)),
         [Event.Read c groupID] ++ boundsLog (calculateDirection g.Total action.Count) g action
           ++ [Event.Update c (withTarget grp cap action.Count)]⟩ := by
  obtain ⟨c, groupID, grp, cap, hp, hg, hr, hcap, htar, -, -, hgrp, hev⟩ :=
    read_ok_shape t g hread
  refine ⟨c, groupID, grp, cap, hp, hg, hr, hcap, htar, ?_⟩
  have hd := calculateDirection_ne g.Total action.Count hne
  have hs := scale_matching t action.Count g c grp cap hp hgrp hcap
  unfold TargetPlugin.Scale
  rw [if_neg hdry]
  simp only [hread, hev, if_neg hd, hs]
  unfold callUpdate afterUpdate withTarget Capacity.SetTarget
  cases t.client.Update c _ <;> rfl

/-! ## Claims -/

/-- C2: `calculateDirection` is a total function of (target, desired): the
result is "in" exactly when desired < target, "out" exactly when
desired > target, and "" exactly when they are equal; no other value is
returned. -/
theorem calculateDirection_total (target desired : Int) :
    (desired < target → calculateDirection target desired = "in") ∧
    (desired > target → calculateDirection target desired = "out") ∧
    (desired = target → calculateDirection target desired = "") ∧
    (calculateDirection target desired = "in" → desired < target) ∧
    (calculateDirection target desired = "out" → desired > target) ∧
    (calculateDirection target desired = "" → desired = target) ∧
    (calculateDirection target desired = "in" ∨ calculateDirection target desired = "out" ∨
      calculateDirection target desired = "") := by
  rcases lt_trichotomy desired target with h | h | h
  · have hv : calculateDirection target desired = "in" := by
      unfold calculateDirection
      rw [if_pos h]
    rw [hv]
    refine ⟨fun _ => rfl, fun h2 => by omega, fun h2 => by omega, fun _ => h,
      fun h2 => absurd h2 (by decide), fun h2 => absurd h2 (by decide), Or.inl rfl⟩
  · have hv : calculateDirection target desired = "" := by
      unfold calculateDirection
      rw [if_neg (by omega), if_neg (by omega)]
    rw [hv]
    refine ⟨fun h2 => by omega, fun h2 => by omega, fun _ => rfl,
      fun h2 => absurd h2 (by decide), fun h2 => absurd h2 (by decide), fun _ => h,
      Or.inr (Or.inr rfl)⟩
  · have hv : calculateDirection target desired = "out" := by
      unfold calculateDirection
      rw [if_neg (by omega), if_pos (by omega)]
    rw [hv]
    refine ⟨fun h2 => by omega, fun _ => rfl, fun h2 => by omega,
      fun h2 => absurd h2 (by decide), fun _ => h, fun h2 => absurd h2 (by decide),
      Or.inr (Or.inl rfl)⟩

/-- The three directions at 5 to 12, 12 to 5 and 5 to 5. -/
theorem calculateDirection_total_witness :
    calculateDirection 5 12 = "out" ∧ calculateDirection 12 5 = "in" ∧
      calculateDirection 5 5 = "" :=
  ⟨(calculateDirection_total 5 12).2.1 (by decide),
   (calculateDirection_total 12 5).1 (by decide),
   (calculateDirection_total 5 5).2.2.1 rfl⟩

/-- C5: a dry-run action (count equal to the dry-run sentinel) makes `Scale`
return nil at once with no event at all: no Read, no Update, no log line, for
every plugin configuration and every behaviour of the remote services. -/
theorem Scale_dry_run (t : TargetPlugin) (dryRunCount : Int) (action : ScalingAction)
    (config : Config) (hdry : action.Count = dryRunCount) :
    (t.Scale dryRunCount action config).result = .ok () ∧
    (t.Scale dryRunCount action config).events = [] := by
  simp [TargetPlugin.Scale, hdry]

/-- A dry run with sentinel -1 against a configured AWS plugin. -/
theorem Scale_dry_run_witness :
    ((demoPlugin (demoConfig "aws")).Scale (-1) ⟨-1⟩ emptyConfig).result = .ok () ∧
    ((demoPlugin (demoConfig "aws")).Scale (-1) ⟨-1⟩ emptyConfig).events = [] :=
  Scale_dry_run (demoPlugin (demoConfig "aws")) (-1) ⟨-1⟩ emptyConfig rfl

/-- C7: when the action is not a dry run and the target returned by a
successful Read equals the desired count, `Scale` returns nil, its events are
those of the Read followed by one info log line, the single provider call is
that Read, and no Update is made. -/
theorem Scale_no_change (t : TargetPlugin) (dryRunCount : Int) (action : ScalingAction)
    (config : Config) (g : Elastigroup)
    (hdry : action.Count ≠ dryRunCount)
    (hread : t.getCurrentElastigroup.result = .ok g)
    (heq : g.Total = action.Count) :
    (t.Scale dryRunCount action config).result = .ok () ∧
    (t.Scale dryRunCount action config).events =
      t.getCurrentElastigroup.events ++ [Event.Info "scaling not required"
        [("current_count", g.Total), ("strategy_count", action.Count)]] ∧
    (∃ c groupID, providerCalls (t.Scale dryRunCount action config).events =
      [Event.Read c groupID]) ∧
    (t.Scale dryRunCount action config).events.filter Event.isUpdate = [] := by
  obtain ⟨c, groupID, grp, cap, -, -, -, -, -, -, -, -, hev⟩ := read_ok_shape t g hread
  have hd : calculateDirection g.Total action.Count = "" := by
    rw [heq]
    exact calculateDirection_same action.Count
  have hrun : t.Scale dryRunCount action config =
      ⟨.ok (), t.getCurrentElastigroup.events ++ [Event.Info "scaling not required"
        [("current_count", g.Total), ("strategy_count", action.Count)]]⟩ := by
    simp [TargetPlugin.Scale, hdry, hread, hd]
  rw [hrun, hev]
  refine ⟨rfl, rfl, ⟨c, groupID, ?_⟩, ?_⟩
  · simp [providerCalls, Event.isProviderCall]
  · simp [Event.isUpdate]

/-- Desired 5 against a group whose target is already 5. -/
theorem Scale_no_change_witness :
    ((demoPlugin (demoConfig "aws")).Scale (-1) ⟨5⟩ emptyConfig).result = .ok () ∧
    ((demoPlugin (demoConfig "aws")).Scale (-1) ⟨5⟩ emptyConfig).events.filter
      Event.isUpdate = [] :=
  have h := Scale_no_change (demoPlugin (demoConfig "aws")) (-1) ⟨5⟩ emptyConfig
    ⟨.aws (some demoGroup), 5, 10, 1⟩ (by decide) (by decide) rfl
  ⟨h.1, h.2.2.2⟩

/-- C10: when the configuration lacks the key provider or the key
elastigroup_id, `getCurrentElastigroup` and `getCurrentElastigroupTargetStatus`
both return a required-field error (hence no result) and cause no event, so
no provider call; when provider is absent, alone or together with
elastigroup_id, the error names provider. -/
theorem missing_key_is_config_error (t : TargetPlugin)
    (h : t.config configKeyProvider = none ∨ t.config configKeyElastigroupID = none) :
    (t.getCurrentElastigroup.result = .error "provider is a required field" ∨
      t.getCurrentElastigroup.result = .error "elastigroup_id is a required field") ∧
    t.getCurrentElastigroup.events = [] ∧
    (t.getCurrentElastigroupTargetStatus.result = .error "provider is a required field" ∨
      t.getCurrentElastigroupTargetStatus.result =
        .error "elastigroup_id is a required field") ∧
    t.getCurrentElastigroupTargetStatus.events = [] ∧
    (t.config configKeyProvider = none →
      t.getCurrentElastigroup.result = .error "provider is a required field" ∧
      t.getCurrentElastigroupTargetStatus.result = .error "provider is a required field") ∧
    (t.config configKeyProvider ≠ none →
      t.getCurrentElastigroup.result = .error "elastigroup_id is a required field" ∧
      t.getCurrentElastigroupTargetStatus.result =
        .error "elastigroup_id is a required field") := by
  unfold TargetPlugin.getCurrentElastigroup TargetPlugin.getCurrentElastigroupTargetStatus
  cases hp : t.config configKeyProvider with
  | none => simp
  | some provider =>
    have hg : t.config configKeyElastigroupID = none := by
      rcases h with h | h
      · rw [hp] at h
        cases h
      · exact h
    simp [hg]

/-- The empty configuration and one holding only the provider. -/
theorem missing_key_is_config_error_witness :
    (demoPlugin emptyConfig).getCurrentElastigroup.result =
      .error "provider is a required field" ∧
    (demoPlugin (providerOnlyConfig "aws")).getCurrentElastigroup.result =
      .error "elastigroup_id is a required field" ∧
    (demoPlugin (providerOnlyConfig "aws")).getCurrentElastigroupTargetStatus.events = [] :=
  ⟨((missing_key_is_config_error (demoPlugin emptyConfig) (Or.inl rfl)).2.2.2.2.1 rfl).1,
   ((missing_key_is_config_error (demoPlugin (providerOnlyConfig "aws"))
      (Or.inr (by decide))).2.2.2.2.2 (by decide)).1,
   (missing_key_is_config_error (demoPlugin (providerOnlyConfig "aws"))
      (Or.inr (by decide))).2.2.2.1⟩

/-- C6, as stated, fails: with provider "unknown-cloud" and no elastigroup_id
key, Read and Status report the missing elastigroup_id, not the unknown
provider. -/
theorem unknown_provider_without_group_id :
    providerOnlyConfig "unknown-cloud" configKeyProvider = some "unknown-cloud" ∧
    knownProvider "unknown-cloud" = false ∧
    (demoPlugin (providerOnlyConfig "unknown-cloud")).getCurrentElastigroup.result =
      .error "elastigroup_id is a required field" ∧
    (demoPlugin (providerOnlyConfig "unknown-cloud")).getCurrentElastigroup.result ≠
      .error (unknownProviderMessage "unknown-cloud") ∧
    (demoPlugin (providerOnlyConfig "unknown-cloud")).getCurrentElastigroupTargetStatus.result =
      .error "elastigroup_id is a required field" ∧
    (demoPlugin (providerOnlyConfig "unknown-cloud")).getCurrentElastigroupTargetStatus.result ≠
      .error (unknownProviderMessage "unknown-cloud") := by
  decide

/-- C6 amended: for every configured provider string other than exactly
"aws", "azure", "gcp", `scale` returns the unknown-provider error, whose text
contains the string, with no event and the handle untouched; and when the
configuration also holds the key elastigroup_id, `getCurrentElastigroup` and
`getCurrentElastigroupTargetStatus` return that same error with no event. -/
theorem unknown_provider_error (t : TargetPlugin) (provider : String)
    (hp : t.config configKeyProvider = some provider)
    (hk : knownProvider provider = false) :
    (∀ count g, (t.scale count g).result = .error (unknownProviderMessage provider) ∧
      (t.scale count g).events = [] ∧ (t.scale count g).group = g.Group) ∧
    (∀ groupID, t.config configKeyElastigroupID = some groupID →
      t.getCurrentElastigroup.result = .error (unknownProviderMessage provider) ∧
      t.getCurrentElastigroup.events = [] ∧
      t.getCurrentElastigroupTargetStatus.result = .error (unknownProviderMessage provider) ∧
      t.getCurrentElastigroupTargetStatus.events = []) ∧
    unknownProviderMessage provider =
      "expected provider of \x27aws\x27, \x27azure\x27, or \x27gcp\x27.  Received "
        ++ provider ++ " " := by
  have hk2 : provider ≠ "azure" ∧ provider ≠ "aws" ∧ provider ≠ "gcp" := by
    simpa [knownProvider] using hk
  obtain ⟨h1, h2, h3⟩ := hk2
  refine ⟨?_, ?_, rfl⟩
  · intro count g
    simp [TargetPlugin.scale, hp, h1, h2, h3, unknownProviderMessage]
  · intro groupID hg
    simp [TargetPlugin.getCurrentElastigroup, TargetPlugin.getCurrentElastigroupTargetStatus,
      hp, hg, h1, h2, h3, unknownProviderMessage]

/-- Providers "AWS" (wrong case) and "unknown-cloud" with a group identifier. -/
theorem unknown_provider_error_witness :
    ((demoPlugin (demoConfig "AWS")).scale 3 ⟨.aws (some demoGroup), 5, 10, 1⟩).result =
      .error (unknownProviderMessage "AWS") ∧
    (demoPlugin (demoConfig "unknown-cloud")).getCurrentElastigroup.result =
      .error (unknownProviderMessage "unknown-cloud") ∧
    (demoPlugin (demoConfig "unknown-cloud")).getCurrentElastigroupTargetStatus.events = [] :=
  ⟨((unknown_provider_error (demoPlugin (demoConfig "AWS")) "AWS" (by decide)
      (by decide)).1 3 ⟨.aws (some demoGroup), 5, 10, 1⟩).1,
   ((unknown_provider_error (demoPlugin (demoConfig "unknown-cloud")) "unknown-cloud"
      (by decide) (by decide)).2.1 "sig-1" (by decide)).1,
   ((unknown_provider_error (demoPlugin (demoConfig "unknown-cloud")) "unknown-cloud"
      (by decide) (by decide)).2.1 "sig-1" (by decide)).2.2.2⟩

/-- C3: for each of the three providers, when the provider Status call
succeeds with a list of nodes, `getCurrentElastigroupTargetStatus` returns a
status whose Count is the length of the list and whose Ready is true exactly
when every node state, lower-cased, is "running" (a nil state counts as the
empty string); "running", "Running" and "RUNNING" are such states; the empty
list gives Ready true and Count 0; one nil state makes Ready false. The only
event is the one Status call. -/
theorem status_count_and_ready (t : TargetPlugin) (c : Cloud) (groupID : String)
    (nodes : List Node)
    (hp : t.config configKeyProvider = some (cloudName c))
    (hg : t.config configKeyElastigroupID = some groupID)
    (hs : t.client.Status c groupID = .ok nodes) :
    ∃ st, t.getCurrentElastigroupTargetStatus.result = .ok st ∧
      st.Count = (nodes.length : Int) ∧
      (st.Ready = true ↔
        ∀ vm ∈ nodes, lowerCase (StringValue vm.State) = "running".toList) ∧
      (nodes = [] → st.Ready = true ∧ st.Count = 0) ∧
      ((∃ vm ∈ nodes, vm.State = none) → st.Ready = false) ∧
      EqualFold "running" "running" = true ∧ EqualFold "Running" "running" = true ∧
      EqualFold "RUNNING" "running" = true ∧
      t.getCurrentElastigroupTargetStatus.events = [Event.Status c groupID] := by
  obtain ⟨hres, hev⟩ := status_matching t c groupID nodes hp hg hs
  refine ⟨fillStatus nodes, hres, rfl, fillStatus_ready_iff nodes, ?_, ?_,
    by decide, by decide, by decide, hev⟩
  · intro hn
    subst hn
    exact ⟨rfl, rfl⟩
  · rintro ⟨vm, hvm, hnone⟩
    cases hr : (fillStatus nodes).Ready with
    | false => rfl
    | true =>
      have h2 := (fillStatus_ready_iff nodes).mp hr vm hvm
      rw [hnone] at h2
      exact absurd h2 (by decide)

/-- Three Azure nodes spelled running, Running and RUNNING: count 3, ready. -/
theorem status_count_and_ready_witness :
    ∃ st, (demoPlugin (demoConfig "azure")).getCurrentElastigroupTargetStatus.result = .ok st ∧
      st.Count = 3 ∧ st.Ready = true := by
  obtain ⟨st, h1, h2, h3, -⟩ := status_count_and_ready (demoPlugin (demoConfig "azure"))
    .azure "sig-1"
    [⟨some "i-1", some "running"⟩, ⟨some "i-2", some "Running"⟩, ⟨some "i-3", some "RUNNING"⟩]
    (by decide) (by decide) rfl
  refine ⟨st, h1, h2, h3.mpr ?_⟩
  decide

/-- C8: `Status` runs the pool check first. If the check answers not ready,
the result is the status with Ready false, Count 0 and no error, and the
pool check is the only event; if the check fails, the result is an error and
the pool check is again the only event; if it answers ready, the events are
the pool check followed by those of `getCurrentElastigroupTargetStatus`, and
when that call returns a status, `Status` returns its Ready and Count. A
provider call among the events implies that the check answered ready. -/
theorem Status_precheck (t : TargetPlugin) (config : Config) :
    (t.clusterUtils.IsPoolReady config = .ok false →
      (t.Status config).result = .ok { Ready := false, Count := 0, Meta := none } ∧
      (t.Status config).events = [Event.IsPoolReady]) ∧
    (∀ err, t.clusterUtils.IsPoolReady config = .error err →
      (t.Status config).result =
        .error ("failed to run Nomad node readiness check: " ++ err) ∧
      (t.Status config).events = [Event.IsPoolReady]) ∧
    (t.clusterUtils.IsPoolReady config = .ok true →
      (t.Status config).events =
        Event.IsPoolReady :: t.getCurrentElastigroupTargetStatus.events ∧
      ∀ st, t.getCurrentElastigroupTargetStatus.result = .ok st →
        (t.Status config).result =
          .ok { Ready := st.Ready, Count := st.Count, Meta := some [] }) ∧
    (providerCalls (t.Status config).events ≠ [] →
      t.clusterUtils.IsPoolReady config = .ok true) := by
  unfold TargetPlugin.Status
  cases hc : t.clusterUtils.IsPoolReady config with
  | error err => simp [providerCalls, Event.isProviderCall]
  | ok ready =>
    cases ready with
    | false => simp [providerCalls, Event.isProviderCall]
    | true =>
      refine ⟨fun h => (by cases h), fun err h => (by cases h), fun _ => ⟨?_, ?_⟩,
        fun _ => rfl⟩
      · show (match t.getCurrentElastigroupTargetStatus.result with
          | .panic => (⟨.panic, Event.IsPoolReady :: t.getCurrentElastigroupTargetStatus.events⟩ :
              Run TargetStatus)
          | .error err => ⟨.error ("failed to describe Elastigroup: " ++ err),
              Event.IsPoolReady :: t.getCurrentElastigroupTargetStatus.events⟩
          | .ok status => ⟨.ok { Ready := status.Ready, Count := status.Count, Meta := some [] },
              Event.IsPoolReady :: t.getCurrentElastigroupTargetStatus.events⟩).events = _
        cases t.getCurrentElastigroupTargetStatus.result <;> rfl
      · intro st hst
        show (match t.getCurrentElastigroupTargetStatus.result with
          | .panic => (⟨.panic, Event.IsPoolReady :: t.getCurrentElastigroupTargetStatus.events⟩ :
              Run TargetStatus)
          | .error err => ⟨.error ("failed to describe Elastigroup: " ++ err),
              Event.IsPoolReady :: t.getCurrentElastigroupTargetStatus.events⟩
          | .ok status => ⟨.ok { Ready := status.Ready, Count := status.Count, Meta := some [] },
              Event.IsPoolReady :: t.getCurrentElastigroupTargetStatus.events⟩).result = _
        rw [hst]

/-- A ready pool followed by the GCP status of three running instances. -/
theorem Status_precheck_witness :
    ((demoPlugin (demoConfig "gcp")).Status emptyConfig).result =
      .ok { Ready := true, Count := 3, Meta := some [] } :=
  ((Status_precheck (demoPlugin (demoConfig "gcp")) emptyConfig).2.2.1 rfl).2
    ⟨3, true⟩ (by decide)

/-- C4: for a non-dry-run action whose count differs from the target of a
successful Read, the events of `Scale` are the Read, then the log lines of
the bounds checks, then one Update; that Update is the only one, it carries
the group that was read with its capacity target set to the desired count
(minimum and maximum as read), and the result of `Scale` is nil when the
Update succeeds and the Update error under the outer message otherwise. A
count above the maximum on the way out, or below the minimum on the way in,
adds an error log line and changes nothing else. -/
theorem Scale_updates_once (t : TargetPlugin) (dryRunCount : Int) (action : ScalingAction)
    (config : Config) (g : Elastigroup)
    (hdry : action.Count ≠ dryRunCount)
    (hread : t.getCurrentElastigroup.result = .ok g)
    (hne : g.Total ≠ action.Count) :
    ∃ c groupID grp cap,
      t.client.Read c groupID = .ok (some grp) ∧ grp.Capacity = some cap ∧
      (t.Scale dryRunCount action config).events =
        [Event.Read c groupID] ++ boundsLog (calculateDirection g.Total action.Count) g action
          ++ [Event.Update c (withTarget grp cap action.Count)] ∧
      (t.Scale dryRunCount action config).events.filter Event.isUpdate =
        [Event.Update c (withTarget grp cap action.Count)] ∧
      (withTarget grp cap action.Count).Capacity =
        some { Minimum := cap.Minimum, Maximum := cap.Maximum, Target := some action.Count } ∧
      (t.Scale dryRunCount action config).result =
        afterUpdate (t.client.Update c (withTarget grp cap action.Count)) ∧
      (g.Total < action.Count ∧ g.MaxCapacity < action.Count →
        Event.Error "cannot scale out due to capacity limits"
          [("current_count", g.Total), ("strategy_count", action.Count)]
          ∈ (t.Scale dryRunCount action config).events) ∧
      (action.Count < g.Total ∧ action.Count < g.MinCapacity →
        Event.Error "cannot scale in due to capacity limits"
          [("current_count", g.Total), ("strategy_count", action.Count)]
          ∈ (t.Scale dryRunCount action config).events) := by
  obtain ⟨c, groupID, grp, cap, -, -, hr, hcap, -, hrun⟩ :=
    Scale_of_other_count t dryRunCount action config g hdry hread hne
  refine ⟨c, groupID, grp, cap, hr, hcap, ?_⟩
  rw [hrun]
  refine ⟨rfl, ?_, rfl, rfl, ?_, ?_⟩
  · have hb : (boundsLog (calculateDirection g.Total action.Count) g action).filter
        Event.isUpdate = [] :=
      filter_none _ _ (fun e he => (boundsLog_no_call _ g action e he).1)
    simp [List.filter_append, hb, Event.isUpdate]
  · rintro ⟨h1, h2⟩
    have hd := calculateDirection_gt g.Total action.Count h1
    simp [boundsLog, hd, h2]
  · rintro ⟨h1, h2⟩
    have hd := calculateDirection_lt g.Total action.Count h1
    simp [boundsLog, hd, h2]

/-- Current 5, minimum 1, maximum 10, desired 12: direction out, one error log
line, one Update with target 12. -/
theorem Scale_updates_once_witness :
    calculateDirection 5 12 = "out" ∧
    ((demoPlugin (demoConfig "aws")).Scale (-1) ⟨12⟩ emptyConfig).events =
      [Event.Read .aws "sig-1",
       Event.Error "cannot scale out due to capacity limits"
         [("current_count", 5), ("strategy_count", 12)],
       Event.Update .aws ⟨some "sig-1", some ⟨some 1, some 10, some 12⟩⟩] ∧
    ∃ c groupID grp cap,
      ((demoPlugin (demoConfig "aws")).Scale (-1) ⟨12⟩ emptyConfig).events.filter
        Event.isUpdate = [Event.Update c (withTarget grp cap 12)] ∧
      demoClient.Read c groupID = .ok (some grp) :=
  have h := Scale_updates_once (demoPlugin (demoConfig "aws")) (-1) ⟨12⟩ emptyConfig
    ⟨.aws (some demoGroup), 5, 10, 1⟩ (by decide) (by decide) (by decide)
  ⟨by decide, by decide,
    h.elim fun c h => h.elim fun groupID h => h.elim fun grp h => h.elim fun cap h =>
      ⟨c, groupID, grp, cap, h.2.2.2.1, h.1⟩⟩

/-- C9: for a non-dry-run action, `Scale` returns an error exactly when the
Read returns an error or an Update was called and answered with an error. An
error of the Read comes back as "failed to describe Elastigroup: " followed
by its message, with the events of the Read only (no Update); an error of
the Update comes back as "failed to perform scaling action: " followed by
its message. The events hold at most one Read call and at most one Update
call, and exactly one Read call when the provider is one of the three and
the group identifier is configured. When the Read succeeds and the Update
succeeds, the result is nil whatever the minimum and maximum are. -/
theorem Scale_error_iff (t : TargetPlugin) (dryRunCount : Int) (action : ScalingAction)
    (config : Config) (hdry : action.Count ≠ dryRunCount) :
    ((∃ msg, (t.Scale dryRunCount action config).result = .error msg) ↔
      ((∃ err, t.getCurrentElastigroup.result = .error err) ∨
       (∃ c grp err, Event.Update c grp ∈ (t.Scale dryRunCount action config).events ∧
          t.client.Update c grp = .error err))) ∧
    (∀ err, t.getCurrentElastigroup.result = .error err →
      (t.Scale dryRunCount action config).result =
        .error ("failed to describe Elastigroup: " ++ err) ∧
      (t.Scale dryRunCount action config).events = t.getCurrentElastigroup.events ∧
      (t.Scale dryRunCount action config).events.filter Event.isUpdate = []) ∧
    (∀ c grp err, Event.Update c grp ∈ (t.Scale dryRunCount action config).events →
      t.client.Update c grp = .error err →
      (t.Scale dryRunCount action config).result =
        .error ("failed to perform scaling action: " ++ err)) ∧
    ((t.Scale dryRunCount action config).events.filter Event.isRead).length ≤ 1 ∧
    ((t.Scale dryRunCount action config).events.filter Event.isUpdate).length ≤ 1 ∧
    (∀ c groupID, t.config configKeyProvider = some (cloudName c) →
      t.config configKeyElastigroupID = some groupID →
      (t.Scale dryRunCount action config).events.filter Event.isRead =
        [Event.Read c groupID]) ∧
    (∀ g, t.getCurrentElastigroup.result = .ok g → g.Total ≠ action.Count →
      ((t.Scale dryRunCount action config).events.filter Event.isUpdate).length = 1) ∧
    (∀ g c grp, t.getCurrentElastigroup.result = .ok g →
      Event.Update c grp ∈ (t.Scale dryRunCount action config).events →
      t.client.Update c grp = .ok () →
      (t.Scale dryRunCount action config).result = .ok ()) := by
  have hre := read_events t
  have hrc := read_events_configured t
  cases hread : t.getCurrentElastigroup.result with
  | panic =>
    rw [Scale_of_read_panic t dryRunCount action config hdry hread]
    rcases hre with he | ⟨c0, g0, he⟩ <;>
      simp_all [Event.isRead, Event.isUpdate] <;> assumption
  | error err0 =>
    rw [Scale_of_read_error t dryRunCount action config err0 hdry hread]
    rcases hre with he | ⟨c0, g0, he⟩ <;>
      simp_all [Event.isRead, Event.isUpdate] <;> assumption
  | ok g =>
    by_cases heq : g.Total = action.Count
    · rw [Scale_of_same_count t dryRunCount action config g hdry hread heq]
      rcases hre with he | ⟨c0, g0, he⟩ <;>
        simp_all [Event.isRead, Event.isUpdate] <;> assumption
    · obtain ⟨c, groupID, grp, cap, hp, hg, -, -, -, hrun⟩ :=
        Scale_of_other_count t dryRunCount action config g hdry hread heq
      rw [hrun]
      have hb := boundsLog_no_call (calculateDirection g.Total action.Count) g action
      have hbu : (boundsLog (calculateDirection g.Total action.Count) g action).filter
          Event.isUpdate = [] := filter_none _ _ (fun e he => (hb e he).1)
      have hbr : (boundsLog (calculateDirection g.Total action.Count) g action).filter
          Event.isRead = [] := filter_none _ _ (fun e he => (hb e he).2)
      have hmem : ∀ c2 grp2, Event.Update c2 grp2 ∈
          [Event.Read c groupID] ++ boundsLog (calculateDirection g.Total action.Count) g action
            ++ [Event.Update c (withTarget grp cap action.Count)] →
          c2 = c ∧ grp2 = withTarget grp cap action.Count := by
        intro c2 grp2 hm
        simp only [List.mem_append, List.mem_singleton] at hm
        rcases hm with (hm | hm) | hm
        · cases hm
        · have := (hb _ hm).1
          simp [Event.isUpdate] at this
        · injection hm with h1 h2
          exact ⟨h1, h2⟩
      have hlast : Event.Update c (withTarget grp cap action.Count) ∈
          [Event.Read c groupID] ++ boundsLog (calculateDirection g.Total action.Count) g action
            ++ [Event.Update c (withTarget grp cap action.Count)] := by
        simp
      refine ⟨?_, ?_, ?_, ?_, ?_, ?_, ?_, ?_⟩
      · constructor
        · rintro ⟨msg, hmsg⟩
          right
          cases hu : t.client.Update c (withTarget grp cap action.Count) with
          | ok u => simp [hu, afterUpdate] at hmsg
          | error e => exact ⟨c, _, e, hlast, hu⟩
        · rintro (⟨e, he⟩ | ⟨c2, grp2, e, hm, hu⟩)
          · cases he
          · obtain ⟨rfl, rfl⟩ := hmem c2 grp2 hm
            exact ⟨"failed to perform scaling action: " ++ e, by simp [hu, afterUpdate]⟩
      · intro e he
        cases he
      · intro c2 grp2 e hm hu
        obtain ⟨rfl, rfl⟩ := hmem c2 grp2 hm
        simp [hu, afterUpdate]
      · simp [List.filter_append, hbr, Event.isRead]
      · simp [List.filter_append, hbu, Event.isUpdate]
      · intro c2 g2 hp2 hg2
        rw [hp] at hp2
        rw [hg] at hg2
        have hc : c = c2 := by
          cases c <;> cases c2 <;> first | rfl | (exact absurd hp2 (by decide))
        injection hg2 with hg2
        subst hc hg2
        simp [List.filter_append, hbr, Event.isRead]
      · intro _ _ _
        simp [List.filter_append, hbu, Event.isUpdate]
      · intro g2 c2 grp2 _ hm hu
        obtain ⟨rfl, rfl⟩ := hmem c2 grp2 hm
        simp [hu, afterUpdate]

/-- Three runs of `Scale`: desired 12 over maximum 10 with a working client
gives nil; a refused Read gives the describe error and no Update; a refused
Update gives the scaling-action error. -/
theorem Scale_error_iff_witness :
    ((demoPlugin (demoConfig "aws")).Scale (-1) ⟨12⟩ emptyConfig).result = .ok () ∧
    (failingPlugin (demoConfig "gcp")).Scale (-1) ⟨12⟩ emptyConfig =
      ⟨.error
        "failed to describe Elastigroup: could not read GCP configuration: read refused",
        [Event.Read .gcp "sig-1"]⟩ ∧
    ((updateFailingPlugin (demoConfig "azure")).Scale (-1) ⟨2⟩ emptyConfig).result =
      .error "failed to perform scaling action: update refused" :=
  ⟨(Scale_error_iff (demoPlugin (demoConfig "aws")) (-1) ⟨12⟩ emptyConfig
      (by decide)).2.2.2.2.2.2.2
      ⟨.aws (some demoGroup), 5, 10, 1⟩ .aws ⟨some "sig-1", some ⟨some 1, some 10, some 12⟩⟩
      (by decide) (by decide) rfl,
    ((Scale_error_iff (failingPlugin (demoConfig "gcp")) (-1) ⟨12⟩ emptyConfig
      (by decide)).2.1 "could not read GCP configuration: read refused" (by decide)).1 ▸
      (by rfl),
    (Scale_error_iff (updateFailingPlugin (demoConfig "azure")) (-1) ⟨2⟩
      emptyConfig (by decide)).2.2.1 .azure ⟨some "sig-1", some ⟨some 1, some 10, some 2⟩⟩
      "update refused" (by decide) rfl⟩

/-- C1 on the code: with provider "azure" and a handle that is not an Azure
group pointer (an AWS or GCP group from another Read, or nil), `scale` does
not return the type-mismatch error: it panics on the nil pointer it got from
the failed type assertion, before the test of the assertion. No Update is
called and the handle is unchanged. -/
theorem scale_azure_mismatch_panics (t : TargetPlugin) (count : Int) (g : Elastigroup)
    (hp : t.config configKeyProvider = some "azure")
    (hg : ∀ p, g.Group ≠ .azure p) :
    (t.scale count g).result = .panic ∧ (t.scale count g).events = [] ∧
    (t.scale count g).group = g.Group := by
  unfold TargetPlugin.scale
  cases hgrp : g.Group with
  | azure p => exact absurd hgrp (hg p)
  | nil => simp [hp, setGroupTarget]
  | aws p => simp [hp, setGroupTarget]
  | gcp p => simp [hp, setGroupTarget]

/-- Provider azure with the handle of an AWS Read: a panic, not the error. -/
theorem scale_azure_mismatch_panics_witness :
    ((demoPlugin (demoConfig "azure")).scale 3 ⟨.aws (some demoGroup), 5, 10, 1⟩).result =
      .panic ∧
    ((demoPlugin (demoConfig "azure")).scale 3 ⟨.aws (some demoGroup), 5, 10, 1⟩).result ≠
      .error "Group type assertion failed.  Group is not of type Azure" :=
  ⟨(scale_azure_mismatch_panics (demoPlugin (demoConfig "azure")) 3
      ⟨.aws (some demoGroup), 5, 10, 1⟩ (by decide) (by intro p h; cases h)).1,
    by decide⟩

/-- The sibling branches: with provider "aws" or "gcp" and a handle of another
provider (or nil), `scale` returns the type-mismatch error, calls no Update
and leaves the handle as it was. -/
theorem scale_aws_gcp_mismatch (t : TargetPlugin) (count : Int) (g : Elastigroup) :
    (t.config configKeyProvider = some "aws" → (∀ p, g.Group ≠ .aws p) →
      t.scale count g =
        ⟨.error "Group type assertion failed.  Group is not of type AWS", [], g.Group⟩) ∧
    (t.config configKeyProvider = some "gcp" → (∀ p, g.Group ≠ .gcp p) →
      t.scale count g =
        ⟨.error "Group type assertion failed.  Group is not of type GCP", [], g.Group⟩) := by
  constructor
  · intro hp hg
    unfold TargetPlugin.scale
    cases hgrp : g.Group with
    | aws p => exact absurd hgrp (hg p)
    | nil => simp [hp]
    | azure p => simp [hp]
    | gcp p => simp [hp]
  · intro hp hg
    unfold TargetPlugin.scale
    cases hgrp : g.Group with
    | gcp p => exact absurd hgrp (hg p)
    | nil => simp [hp]
    | azure p => simp [hp]
    | aws p => simp [hp]

end Plugin
